import Mathlib

set_option maxRecDepth 40000
set_option maxHeartbeats 2000000

/-!
Shallow embedding of the resource-reconciliation core of miniwdl-omics-run
(src/miniwdl_omics_run/__main__.py and src/miniwdl_omics_submit/__main__.py).

The remote Omics store is modelled as lists of remote entities; each remote
call used by the tool (list_workflows, get_workflow, get_workflow_version,
create_workflow, create_workflow_version, list_run_groups, list_run_caches)
is modelled by a pure function over that store.  Statuses, names and ids are
the strings / integers the code manipulates.  Polling loops are modelled on a
static store (the "no intervening change" scenario): polling an entity whose
status stays in the creating set forever is represented by a `diverge`
outcome.  `sys.exit(n)` is represented by an `exit n` outcome, an uncaught
botocore ClientError by a `raised` outcome.
-/

namespace MiniwdlOmicsRun

/-- A workflow entity as observed through list_workflows / get_workflow:
id, name, status, and the tag map (get_workflow only). -/
structure RemoteWorkflow where
  id : Nat
  name : String
  status : String
  tags : List (String × String)
deriving Repr, DecidableEq

/-- A workflow version as observed through get_workflow_version. -/
structure RemoteVersion where
  workflowId : Nat
  versionName : String
  status : String
deriving Repr, DecidableEq

/-- The remote store: workflow entities, workflow-version entities, and the
next id the service will assign to a created workflow. -/
structure Store where
  workflows : List RemoteWorkflow
  versions : List RemoteVersion
  nextId : Nat
deriving Repr, DecidableEq

/-- Tag-map lookup, as `tags[key]` on the dict returned by get_workflow. -/
def tagLookup (tags : List (String × String)) (key : String) : Option String :=
  (tags.find? (fun kv => kv.1 == key)).map (fun kv => kv.2)

/-- The per-item filter in select_existing_workflow_id: skip items whose
status is DELETED or FAILED, and when require_tag=(key,val) is given keep
only items whose get_workflow tags satisfy tags[key] == val. -/
def qualifiesWorkflow (requireTag : Option (String × String)) (w : RemoteWorkflow) : Bool :=
  !(w.status == "DELETED" || w.status == "FAILED") &&
    (match requireTag with
     | none => true
     | some kv =>
       match tagLookup w.tags kv.1 with
       | none => false
       | some v => v == kv.2)

/-- The matches list accumulated by select_existing_workflow_id: the paginated
list_workflows listing filtered by exact name (done server-side by the
name= parameter) and by `qualifiesWorkflow`. -/
def workflowMatches (s : Store) (wfname : String)
    (requireTag : Option (String × String)) : List RemoteWorkflow :=
  s.workflows.filter (fun w => w.name == wfname && qualifiesWorkflow requireTag w)

/-- select_existing_workflow_id: returns (chosen id or none, number of
warnings emitted).  The code takes matches[0] and warns iff len(matches)>1. -/
def select_existing_workflow_id (s : Store) (wfname : String)
    (requireTag : Option (String × String)) : Option Nat × Nat :=
  match workflowMatches s wfname requireTag with
  | [] => (none, 0)
  | m :: rest => (some m.id, if rest.isEmpty then 0 else 1)

/-- create_workflow: the service appends a new entity carrying the requested
name and tags, with a service-chosen fresh id and initial status. -/
def create_omics_workflow (s : Store) (wfname : String)
    (tags : List (String × String)) (createdStatus : String) : Nat × Store :=
  (s.nextId,
    { workflows := s.workflows ++
        [{ id := s.nextId, name := wfname, status := createdStatus, tags := tags }],
      versions := s.versions,
      nextId := s.nextId + 1 })

/-- get_workflow(id)["status"], or none when no workflow has that id. -/
def workflowStatus (s : Store) (wid : Nat) : Option String :=
  (s.workflows.find? (fun w => w.id == wid)).map (fun w => w.status)

/-- Outcome of running await_omics_workflow against a store that does not
change between polls: FAILED exits with code 2, CREATING polls forever
(diverge), a missing id raises, anything else terminates successfully. -/
inductive StaticPoll where
  | ok
  | exit2
  | diverge
  | notFound
deriving Repr, DecidableEq

/-- await_omics_workflow on a static store (see `StaticPoll`). -/
def await_workflow_static (s : Store) (wid : Nat) : StaticPoll :=
  match workflowStatus s wid with
  | none => .notFound
  | some st =>
    if st == "FAILED" then .exit2
    else if st == "CREATING" then .diverge
    else .ok

/-- get_workflow_version(workflowId, versionName), successful case. -/
def lookupVersion (s : Store) (wid : Nat) (vname : String) : Option RemoteVersion :=
  s.versions.find? (fun v => v.workflowId == wid && v.versionName == vname)

/-- The not-found classification of a botocore ClientError in
ensure_omics_workflow_and_version: error code in
(NotFoundException, ResourceNotFoundException) or HTTP status 404. -/
def not_found_client_error (code : String) (httpStatus : Option Nat) : Bool :=
  (code == "NotFoundException" || code == "ResourceNotFoundException") ||
    httpStatus == some 404

/-- Parameters of the remote service's behaviour that the code only observes:
the initial status assigned to a created workflow / workflow version, and the
ClientError (code, HTTP status) raised by get_workflow_version when the
requested version does not exist. -/
structure RemoteBehavior where
  createdWorkflowStatus : String
  createdVersionStatus : String
  missingVersionErrCode : String
  missingVersionErrStatus : Option Nat
deriving Repr, DecidableEq

/-- How a run of ensure_omics_workflow_and_version ends:
normal return of (workflow_id, version_name), sys.exit(code), an endless
polling loop on the static store, or an uncaught ClientError. -/
inductive EnsureOutcome where
  | ok (workflowId : Nat) (versionName : String)
  | exit (code : Nat)
  | diverge
  | raised (code : String) (httpStatus : Option Nat)
deriving Repr, DecidableEq

/-- Result of the version half of ensure_omics_workflow_and_version. -/
structure VersionStepResult where
  outcome : EnsureOutcome
  store : Store
  createVersionCalls : Nat
deriving Repr, DecidableEq

/-- The version half of ensure_omics_workflow_and_version (lines 407-456):
try get_workflow_version; on a ClientError classified not-found create the
version, otherwise re-raise; await the version iff it was just created or the
existing one is CREATING. -/
def ensure_version_step (rb : RemoteBehavior) (s : Store) (wid : Nat)
    (version_name : String) : VersionStepResult :=
  match lookupVersion s wid version_name with
  | some v =>
    if v.status == "CREATING" then { outcome := .diverge, store := s, createVersionCalls := 0 }
    else { outcome := .ok wid version_name, store := s, createVersionCalls := 0 }
  | none =>
    if not_found_client_error rb.missingVersionErrCode rb.missingVersionErrStatus then
      let s2 : Store := { s with versions := s.versions ++
        [{ workflowId := wid, versionName := version_name,
           status := rb.createdVersionStatus }] }
      if rb.createdVersionStatus == "FAILED" then
        { outcome := .exit 2, store := s2, createVersionCalls := 1 }
      else if rb.createdVersionStatus == "CREATING" then
        { outcome := .diverge, store := s2, createVersionCalls := 1 }
      else
        { outcome := .ok wid version_name, store := s2, createVersionCalls := 1 }
    else
      { outcome := .raised rb.missingVersionErrCode rb.missingVersionErrStatus,
        store := s, createVersionCalls := 0 }

/-- Full result of one ensure invocation, with create-call counters. -/
structure EnsureResult where
  outcome : EnsureOutcome
  store : Store
  createWorkflowCalls : Nat
  createVersionCalls : Nat
deriving Repr, DecidableEq

/-- The ownership tag pair (TAG_KEY, TAG_VAL) used by the versioned flavor. -/
def miniwdlTag : String × String := ("miniwdl-omics-run", "yes")

/-- Continuation of ensure_omics_workflow_and_version after the base workflow
id is known: await the base workflow, then run the version half. -/
def ensure_after_base (rb : RemoteBehavior) (s : Store) (wid : Nat)
    (version_name : String) (wfCreates : Nat) : EnsureResult :=
  match await_workflow_static s wid with
  | .notFound =>
    { outcome := .raised "ResourceNotFoundException" (some 404), store := s,
      createWorkflowCalls := wfCreates, createVersionCalls := 0 }
  | .exit2 =>
    { outcome := .exit 2, store := s,
      createWorkflowCalls := wfCreates, createVersionCalls := 0 }
  | .diverge =>
    { outcome := .diverge, store := s,
      createWorkflowCalls := wfCreates, createVersionCalls := 0 }
  | .ok =>
    let vs := ensure_version_step rb s wid version_name
    { outcome := vs.outcome, store := vs.store,
      createWorkflowCalls := wfCreates, createVersionCalls := vs.createVersionCalls }

/-- Body of ensure_omics_workflow_and_version once base_name and
version_name have been computed: find the tagged base workflow or create it,
await it, then ensure the version. -/
def ensure_named (rb : RemoteBehavior) (s : Store)
    (base_name version_name : String) : EnsureResult :=
  match (select_existing_workflow_id s base_name (some miniwdlTag)).1 with
  | some wid => ensure_after_base rb s wid version_name 0
  | none =>
    let created := create_omics_workflow s base_name [miniwdlTag] rb.createdWorkflowStatus
    ensure_after_base rb created.2 created.1 version_name 1

/-- ensure_omics_workflow_and_version: find the tagged base workflow named
wdl_exe.name[:128] or create it, await it, then ensure the version named
wdl_exe.digest[:16]. -/
def ensure_omics_workflow_and_version (rb : RemoteBehavior) (s : Store)
    (wfname digest : String) : EnsureResult :=
  ensure_named rb s (wfname.take 128) (digest.take 16)

/-- Outcome of ensure_omics_workflow_legacy. -/
inductive LegacyOutcome where
  | ok (workflowId : Nat)
  | exit (code : Nat)
  | diverge
  | raised
deriving Repr, DecidableEq

/-- Result of one legacy ensure invocation. -/
structure LegacyResult where
  outcome : LegacyOutcome
  store : Store
  createWorkflowCalls : Nat
deriving Repr, DecidableEq

/-- Body of ensure_omics_workflow_legacy once the digest-suffixed workflow
name has been computed: find or create the untagged workflow, then await it. -/
def legacy_named (rb : RemoteBehavior) (s : Store)
    (omics_workflow_name : String) : LegacyResult :=
  match (select_existing_workflow_id s omics_workflow_name none).1 with
  | some wid =>
    match await_workflow_static s wid with
    | .notFound => { outcome := .raised, store := s, createWorkflowCalls := 0 }
    | .exit2 => { outcome := .exit 2, store := s, createWorkflowCalls := 0 }
    | .diverge => { outcome := .diverge, store := s, createWorkflowCalls := 0 }
    | .ok => { outcome := .ok wid, store := s, createWorkflowCalls := 0 }
  | none =>
    let created := create_omics_workflow s omics_workflow_name [] rb.createdWorkflowStatus
    match await_workflow_static created.2 created.1 with
    | .notFound => { outcome := .raised, store := created.2, createWorkflowCalls := 1 }
    | .exit2 => { outcome := .exit 2, store := created.2, createWorkflowCalls := 1 }
    | .diverge => { outcome := .diverge, store := created.2, createWorkflowCalls := 1 }
    | .ok => { outcome := .ok created.1, store := created.2, createWorkflowCalls := 1 }

/-- ensure_omics_workflow_legacy: one untagged workflow per content digest,
named wdl_exe.name[:111] + "." + wdl_exe.digest[:16]; find or create, then
await it. -/
def ensure_omics_workflow_legacy (rb : RemoteBehavior) (s : Store)
    (wfname digest : String) : LegacyResult :=
  legacy_named rb s (wfname.take 111 ++ "." ++ digest.take 16)

/-- Store sanity: ids already in the store are below the next id the service
will assign (fresh-id property of create_workflow). -/
def StoreWF (s : Store) : Prop :=
  (∀ w ∈ s.workflows, w.id < s.nextId) ∧ (∀ v ∈ s.versions, v.workflowId < s.nextId)

instance (s : Store) : Decidable (StoreWF s) := by
  unfold StoreWF; exact instDecidableAnd

/-- The entity details fetched by one call of the fetch closure handed to
await_omics_entity: status and optional statusMessage. -/
structure EntityDetails where
  status : String
  statusMessage : Option String
deriving Repr, DecidableEq

/-- The status line the polling loop logs, and reports on failure:
f-string description + " status " + status + ", " + statusMessage with the
default "(no status message)". -/
def awaitMsg (desc : String) (d : EntityDetails) : String :=
  desc ++ " status " ++ d.status ++ ", " ++ d.statusMessage.getD "(no status message)"

/-- Observable end of the polling loop: sys.exit(code) carrying the logged
error message, normal loop exit carrying the final last_details, or the
supplied trace ran out while the entity was still creating.  Every
constructor records how many fetches and sleeps happened. -/
inductive AwaitResult where
  | exited (code : Nat) (errorMsg : String) (fetches : Nat) (sleeps : Nat)
  | completed (lastDetails : EntityDetails) (fetches : Nat) (sleeps : Nat)
  | ranOut (fetches : Nat) (sleeps : Nat)
deriving Repr, DecidableEq

/-- The while-loop of await_omics_entity, run against the list of successive
fetch results: fetch; exit 2 if status in failed_statuses; break if status
not in creating_statuses; else sleep one interval and refetch. -/
def await_omics_entity_loop (creating failed : List String) (desc : String) :
    List EntityDetails → Nat → Nat → AwaitResult
  | [], fetches, sleeps => .ranOut fetches sleeps
  | d :: rest, fetches, sleeps =>
    if failed.contains d.status then .exited 2 (awaitMsg desc d) (fetches + 1) sleeps
    else if !(creating.contains d.status) then .completed d (fetches + 1) sleeps
    else await_omics_entity_loop creating failed desc rest (fetches + 1) (sleeps + 1)

/-- await_omics_entity with its default creating_statuses=("CREATING",) and
failed_statuses=("FAILED",). -/
def await_omics_entity (desc : String) (trace : List EntityDetails) : AwaitResult :=
  await_omics_entity_loop ["CREATING"] ["FAILED"] desc trace 0 0

/-- The value await_omics_entity hands back to its caller: the Python
function body contains no return statement, so the caller always receives
None, whatever the fetched details were. -/
def await_omics_entity_return (_desc : String) (_trace : List EntityDetails) :
    Option EntityDetails :=
  none

/-- The inline polling loop of await_omics_workflow in the submit tool
(src/miniwdl_omics_submit/__main__.py lines 260-275): literal comparisons
status == "FAILED" and status != "CREATING". -/
def await_omics_workflow_submit (desc : String) :
    List EntityDetails → Nat → Nat → AwaitResult
  | [], fetches, sleeps => .ranOut fetches sleeps
  | d :: rest, fetches, sleeps =>
    if d.status == "FAILED" then .exited 2 (awaitMsg desc d) (fetches + 1) sleeps
    else if !(d.status == "CREATING") then .completed d (fetches + 1) sleeps
    else await_omics_workflow_submit desc rest (fetches + 1) (sleeps + 1)

/-- Exit code used by main for every validation failure (sys.exit(1) calls
in main, resolve_iam_role_arn, resolve_run_group_id, resolve_cache_id). -/
def validation_exit_code : Nat := 1

/-- A run group item as returned by list_run_groups (id and name only). -/
structure RunGroup where
  id : String
  name : String
deriving Repr, DecidableEq

/-- Outcome of a name-resolution helper that either returns an id (with the
number of ambiguity warnings logged) or terminates the process. -/
inductive Resolution where
  | resolved (id : String) (warnings : Nat)
  | exit (code : Nat)
deriving Repr, DecidableEq

/-- resolve_run_group_id: list_run_groups(name=..., maxResults=2) returns at
most the first two name-matching groups; exit 1 if none, warn if more than
one, return groups[0]["id"]. -/
def resolve_run_group_id (groups : List RunGroup) (run_group_name : String) :
    Resolution :=
  match (groups.filter (fun g => g.name == run_group_name)).take 2 with
  | [] => .exit 1
  | g :: rest => .resolved g.id (if rest.isEmpty then 0 else 1)

/-- A run cache item as returned by list_run_caches.  The remote entity
carries a status; resolve_cache_id never reads it. -/
structure RunCache where
  id : String
  name : String
  status : String
deriving Repr, DecidableEq

/-- The name comparison existing["name"] == cache_name (False when
cache_name is Python None). -/
def cacheNameMatches (cache_name : Option String) (c : RunCache) : Bool :=
  match cache_name with
  | none => false
  | some n => c.name == n

/-- The scanning loop of resolve_cache_id: walks every page item, counts the
name matches and keeps overwriting existing_id with the current match. -/
def cache_scan (cache_name : Option String) :
    List RunCache → Nat → Option String → Nat × Option String
  | [], count, idAcc => (count, idAcc)
  | c :: rest, count, idAcc =>
    if cacheNameMatches cache_name c then
      cache_scan cache_name rest (count + 1) (some c.id)
    else
      cache_scan cache_name rest count idAcc

/-- resolve_cache_id: pass a given --cache-id through; otherwise scan the
full list_run_caches listing by name, warn if the count exceeds one, and
exit 1 when nothing matched. -/
def resolve_cache_id (caches : List RunCache) (cache_name : Option String)
    (cache_id : Option String) : Resolution :=
  match cache_id with
  | some cid => .resolved cid 0
  | none =>
    let scan := cache_scan cache_name caches 0 none
    match scan.2 with
    | some existing_id => .resolved existing_id (if 1 < scan.1 then 1 else 0)
    | none => .exit 1

/-- The scanning loop of the submit tool's ensure_omics_workflow: walks the
name-filtered list_workflows pages, skips DELETED/FAILED, counts matches and
keeps overwriting existing_id with the current match. -/
def submit_workflow_scan (wfname : String) :
    List RemoteWorkflow → Nat → Option Nat → Nat × Option Nat
  | [], count, idAcc => (count, idAcc)
  | w :: rest, count, idAcc =>
    if w.name == wfname && !(w.status == "DELETED" || w.status == "FAILED") then
      submit_workflow_scan wfname rest (count + 1) (some w.id)
    else
      submit_workflow_scan wfname rest count idAcc

/-- The find half of the submit tool's ensure_omics_workflow: the chosen
existing id (or none, meaning the create path is taken) and the number of
ambiguity warnings logged. -/
def ensure_omics_workflow_submit_select (workflows : List RemoteWorkflow)
    (wfname : String) : Option Nat × Nat :=
  let scan := submit_workflow_scan wfname workflows 0 none
  match scan.2 with
  | some existing_id => (some existing_id, if 1 < scan.1 then 1 else 0)
  | none => (none, 0)

/-- The literal dict {"no": "NO_CACHE", "failure": "CACHE_ON_FAILURE",
"always": "CACHE_ALWAYS"}. -/
def cacheBehaviorBase : List (String × String) :=
  [("no", "NO_CACHE"), ("failure", "CACHE_ON_FAILURE"), ("always", "CACHE_ALWAYS")]

/-- _CACHE_BEHAVIOR_MAP after the module-level loop that maps every canonical
value to itself. -/
def _CACHE_BEHAVIOR_MAP : List (String × String) :=
  cacheBehaviorBase ++ cacheBehaviorBase.map (fun kv => (kv.2, kv.2))

/-- Dict lookup _CACHE_BEHAVIOR_MAP[v]; none models the KeyError. -/
def cacheBehaviorLookup (v : String) : Option String :=
  (_CACHE_BEHAVIOR_MAP.find? (fun kv => kv.1 == v)).map (fun kv => kv.2)

/-- The choices=_CACHE_BEHAVIOR_MAP.keys() restriction argparse puts on
--cache-behavior. -/
def cacheBehaviorChoices : List String :=
  _CACHE_BEHAVIOR_MAP.map (fun kv => kv.1)

/-- Whether argument parsing accepts a given --cache-behavior value (absent
is fine; a supplied value must be one of the dict keys, compared exactly). -/
def cache_behavior_arg_ok (v : Option String) : Bool :=
  match v with
  | none => true
  | some cb => cacheBehaviorChoices.contains cb

/-- A value of a start_run option: string or integer. -/
inductive OptVal where
  | str (s : String)
  | int (n : Int)
deriving Repr, DecidableEq

/-- The optional run-configuration arguments start_run_options reads. -/
structure RunArgs where
  name : Option String
  priority : Option Int
  run_group_id : Option String
  storage_capacity : Option Int
  storage_type : Option String
  cache_id : Option String
  cache_behavior : Option String
  retention_mode : Option String
deriving Repr, DecidableEq

/-- One iteration of the mappings loop: append (key, value) iff the argument
is set. -/
def addOpt (ans : List (String × OptVal)) (key : String) (v : Option OptVal) :
    List (String × OptVal) :=
  match v with
  | none => ans
  | some x => ans ++ [(key, x)]

/-- start_run_options: walks the mappings list in order, including exactly
the set arguments, upper-casing storage_type and retention_mode and mapping
cache_behavior through _CACHE_BEHAVIOR_MAP (none models the KeyError a value
outside the dict would raise; argparse choices prevent that). -/
def start_run_options (args : RunArgs) : Option (List (String × OptVal)) :=
  let ans := addOpt [] "name" (args.name.map OptVal.str)
  let ans := addOpt ans "priority" (args.priority.map OptVal.int)
  let ans := addOpt ans "runGroupId" (args.run_group_id.map OptVal.str)
  let ans := addOpt ans "storageCapacity" (args.storage_capacity.map OptVal.int)
  let ans := addOpt ans "storageType" (args.storage_type.map (fun v => OptVal.str v.toUpper))
  let ans := addOpt ans "cacheId" (args.cache_id.map OptVal.str)
  match args.cache_behavior with
  | none =>
    some (addOpt ans "retentionMode" (args.retention_mode.map (fun v => OptVal.str v.toUpper)))
  | some cb =>
    match cacheBehaviorLookup cb with
    | none => none
    | some norm =>
      some (addOpt (ans ++ [("cacheBehavior", OptVal.str norm)]) "retentionMode"
        (args.retention_mode.map (fun v => OptVal.str v.toUpper)))

/-- RunArgs with every optional run option unset. -/
def noOptions : RunArgs :=
  { name := none, priority := none, run_group_id := none, storage_capacity := none,
    storage_type := none, cache_id := none, cache_behavior := none, retention_mode := none }

/-- Python truthiness of an optional string argument (None and "" are falsy). -/
def pyTruthy (v : Option String) : Bool :=
  match v with
  | none => false
  | some s => !(s == "")

/-- The cache-related arguments main consults between workflow reconciliation
and start_run. -/
structure CacheArgs where
  cache : Option String
  cache_id : Option String
  cache_behavior : Option String
deriving Repr, DecidableEq

/-- How the cache-resolution / start_run tail of main ends: the exit code if
the process terminated early, and how many start_run calls were issued. -/
structure RunPhaseResult where
  exitCode : Option Nat
  startRunCalls : Nat
deriving Repr, DecidableEq

/-- Lines 112-131 of main: if --cache or --cache-id was supplied resolve the
cache id (which may itself exit); otherwise a bare --cache-behavior is a
validation error, sys.exit(1); only after that does main call start_run
exactly once. -/
def main_run_phase (caches : List RunCache) (args : CacheArgs) : RunPhaseResult :=
  if pyTruthy args.cache || pyTruthy args.cache_id then
    match resolve_cache_id caches args.cache args.cache_id with
    | .exit c => { exitCode := some c, startRunCalls := 0 }
    | .resolved _ _ => { exitCode := none, startRunCalls := 1 }
  else if args.cache_behavior.isSome then
    { exitCode := some validation_exit_code, startRunCalls := 0 }
  else
    { exitCode := none, startRunCalls := 1 }

/-! Theorems. -/

/-- C8 counterexample: the canonical value CACHE_ALWAYS is accepted, but its
lower-case spelling cache_always is rejected by the argparse choices list and
has no entry in the alias map, so acceptance of canonical values is not
case-insensitive. -/
theorem cache_behavior_case_sensitive_cex :
    cacheBehaviorChoices.contains "CACHE_ALWAYS" = true ∧
    cacheBehaviorChoices.contains "cache_always" = false ∧
    cacheBehaviorLookup "cache_always" = none := by
  decide

/-- C8 (amended): the alias table maps no/failure/always to
NO_CACHE/CACHE_ON_FAILURE/CACHE_ALWAYS, canonical values pass through
unchanged, the accepted spellings are exactly the six dict keys (compared
exactly, not case-insensitively), and every value argument parsing accepts
has an entry in the map (so no unknown value reaches the remote call). -/
theorem cache_behavior_alias_table :
    cacheBehaviorLookup "no" = some "NO_CACHE" ∧
    cacheBehaviorLookup "failure" = some "CACHE_ON_FAILURE" ∧
    cacheBehaviorLookup "always" = some "CACHE_ALWAYS" ∧
    cacheBehaviorLookup "NO_CACHE" = some "NO_CACHE" ∧
    cacheBehaviorLookup "CACHE_ON_FAILURE" = some "CACHE_ON_FAILURE" ∧
    cacheBehaviorLookup "CACHE_ALWAYS" = some "CACHE_ALWAYS" ∧
    cacheBehaviorChoices =
      ["no", "failure", "always", "NO_CACHE", "CACHE_ON_FAILURE", "CACHE_ALWAYS"] ∧
    (∀ v : String, cache_behavior_arg_ok (some v) = true →
      (cacheBehaviorLookup v).isSome = true) := by
  refine ⟨by decide, by decide, by decide, by decide, by decide, by decide, by decide, ?_⟩
  intro v h
  have hv : v ∈ cacheBehaviorChoices := by
    simpa [cache_behavior_arg_ok] using h
  have hv2 : v = "no" ∨ v = "failure" ∨ v = "always" ∨ v = "NO_CACHE" ∨
      v = "CACHE_ON_FAILURE" ∨ v = "CACHE_ALWAYS" := by
    simpa [cacheBehaviorChoices, _CACHE_BEHAVIOR_MAP, cacheBehaviorBase] using hv
  rcases hv2 with rfl | rfl | rfl | rfl | rfl | rfl <;> decide

/-- C8 witness: the amended theorem applied at the accepted value always. -/
theorem cache_behavior_alias_table_witness :
    cache_behavior_arg_ok (some "always") = true ∧
    (cacheBehaviorLookup "always").isSome = true :=
  ⟨by decide, cache_behavior_alias_table.2.2.2.2.2.2.2 "always" (by decide)⟩

/-- C9: with no optional run option set the constructed options map is empty,
and with exactly one option set it contains exactly that key, with
storageType and retentionMode upper-cased and cacheBehavior mapped through
the alias table. -/
theorem start_run_options_sparse :
    start_run_options noOptions = some [] ∧
    (∀ v, start_run_options { noOptions with name := some v } =
      some [("name", OptVal.str v)]) ∧
    (∀ v, start_run_options { noOptions with priority := some v } =
      some [("priority", OptVal.int v)]) ∧
    (∀ v, start_run_options { noOptions with run_group_id := some v } =
      some [("runGroupId", OptVal.str v)]) ∧
    (∀ v, start_run_options { noOptions with storage_capacity := some v } =
      some [("storageCapacity", OptVal.int v)]) ∧
    (∀ v, start_run_options { noOptions with storage_type := some v } =
      some [("storageType", OptVal.str v.toUpper)]) ∧
    (∀ v, start_run_options { noOptions with cache_id := some v } =
      some [("cacheId", OptVal.str v)]) ∧
    (∀ v norm, cacheBehaviorLookup v = some norm →
      start_run_options { noOptions with cache_behavior := some v } =
        some [("cacheBehavior", OptVal.str norm)]) ∧
    (∀ v, start_run_options { noOptions with retention_mode := some v } =
      some [("retentionMode", OptVal.str v.toUpper)]) := by
  refine ⟨rfl, fun v => rfl, fun v => rfl, fun v => rfl, fun v => rfl, fun v => rfl,
    fun v => rfl, ?_, fun v => rfl⟩
  intro v norm h
  simp [start_run_options, noOptions, addOpt, h]

/-- C9 witness: the sparse-options theorem applied at priority=3 and at
cache_behavior=always. -/
theorem start_run_options_sparse_witness :
    start_run_options { noOptions with priority := some 3 } =
      some [("priority", OptVal.int 3)] ∧
    start_run_options { noOptions with cache_behavior := some "always" } =
      some [("cacheBehavior", OptVal.str "CACHE_ALWAYS")] :=
  ⟨start_run_options_sparse.2.2.1 3,
   start_run_options_sparse.2.2.2.2.2.2.2.1 "always" "CACHE_ALWAYS" (by decide)⟩

/-- C10: supplying --cache-behavior without --cache or --cache-id makes main
log an error and exit with the validation code 1 before any start_run call. -/
theorem cache_behavior_requires_cache :
    ∀ (caches : List RunCache) (args : CacheArgs),
      args.cache = none → args.cache_id = none → args.cache_behavior.isSome = true →
      main_run_phase caches args =
        { exitCode := some validation_exit_code, startRunCalls := 0 } ∧
      validation_exit_code = 1 := by
  intro caches args h1 h2 h3
  exact ⟨by simp [main_run_phase, pyTruthy, h1, h2, h3], rfl⟩

/-- C10 witness: the theorem applied with only --cache-behavior supplied. -/
theorem cache_behavior_requires_cache_witness :
    main_run_phase [] { cache := none, cache_id := none, cache_behavior := some "always" } =
      { exitCode := some validation_exit_code, startRunCalls := 0 } ∧
    validation_exit_code = 1 :=
  cache_behavior_requires_cache []
    { cache := none, cache_id := none, cache_behavior := some "always" } rfl rfl rfl

/-- Characterization of the cache-resolution scanning loop: it counts the
name matches and ends up holding the id of the last match. -/
theorem cache_scan_eq (cn : Option String) (l : List RunCache) :
    ∀ (count : Nat) (idAcc : Option String),
    cache_scan cn l count idAcc =
      (count + (l.filter (cacheNameMatches cn)).length,
       (l.filter (cacheNameMatches cn)).foldl (fun _ c => some c.id) idAcc) := by
  induction l with
  | nil => intro count idAcc; simp [cache_scan]
  | cons c t ih =>
    intro count idAcc
    by_cases h : cacheNameMatches cn c
    · rw [cache_scan, if_pos h, ih, List.filter_cons, if_pos h]
      simp
      omega
    · rw [cache_scan, if_neg h, ih, List.filter_cons, if_neg h]

/-- Characterization of the submit tool's workflow scanning loop: it counts
the qualifying matches and ends up holding the id of the last one. -/
theorem submit_workflow_scan_eq (wfname : String) (l : List RemoteWorkflow) :
    ∀ (count : Nat) (idAcc : Option Nat),
    submit_workflow_scan wfname l count idAcc =
      (count + (l.filter (fun w =>
        w.name == wfname && !(w.status == "DELETED" || w.status == "FAILED"))).length,
       (l.filter (fun w =>
        w.name == wfname && !(w.status == "DELETED" || w.status == "FAILED"))).foldl
          (fun _ w => some w.id) idAcc) := by
  induction l with
  | nil => intro count idAcc; simp [submit_workflow_scan]
  | cons w t ih =>
    intro count idAcc
    by_cases h : w.name == wfname && !(w.status == "DELETED" || w.status == "FAILED")
    · rw [submit_workflow_scan, if_pos h, ih, List.filter_cons, if_pos h]
      simp
      omega
    · rw [submit_workflow_scan, if_neg h, ih, List.filter_cons, if_neg h]

/-- C4 counterexample: with zero qualifying entries the run-group and
run-cache resolvers do not return a not-found outcome; they terminate the
process with exit code 1. -/
theorem resolver_exit_on_missing_cex :
    resolve_run_group_id [] "grp" = .exit 1 ∧
    resolve_cache_id [] (some "mycache") none = .exit 1 := by
  decide

/-- C4 (amended): with zero qualifying entries the workflow resolver returns
none to its caller (and main then takes the create path), while the
run-group and run-cache resolvers log an error and exit the process with
code 1. -/
theorem zero_candidates_behavior :
    (∀ (s : Store) (n : String) (t : Option (String × String)),
      workflowMatches s n t = [] → select_existing_workflow_id s n t = (none, 0)) ∧
    (∀ (groups : List RunGroup) (n : String),
      groups.filter (fun g => g.name == n) = [] →
      resolve_run_group_id groups n = .exit 1) ∧
    (∀ (caches : List RunCache) (n : String),
      caches.filter (cacheNameMatches (some n)) = [] →
      resolve_cache_id caches (some n) none = .exit 1) := by
  refine ⟨?_, ?_, ?_⟩
  · intro s n t h
    simp [select_existing_workflow_id, h]
  · intro groups n h
    simp [resolve_run_group_id, h]
  · intro caches n h
    simp [resolve_cache_id, cache_scan_eq, h]

/-- C4 witness: the amended theorem applied to empty listings. -/
theorem zero_candidates_behavior_witness :
    select_existing_workflow_id { workflows := [], versions := [], nextId := 0 }
      "wf" none = (none, 0) ∧
    resolve_run_group_id [] "grp2" = .exit 1 ∧
    resolve_cache_id [] (some "c2") none = .exit 1 :=
  ⟨zero_candidates_behavior.1 { workflows := [], versions := [], nextId := 0 }
      "wf" none (by decide),
   zero_candidates_behavior.2.1 [] "grp2" (by decide),
   zero_candidates_behavior.2.2 [] "c2" (by decide)⟩

/-- C3 counterexample: with two qualifying caches named c in listing order
(idA then idB), resolve_cache_id returns idB, the last match, not the first
(idA), with one warning. -/
theorem resolve_cache_last_match_cex :
    resolve_cache_id
      [{ id := "idA", name := "c", status := "ACTIVE" },
       { id := "idB", name := "c", status := "ACTIVE" }] (some "c") none =
      .resolved "idB" 1 ∧ ("idB" : String) ≠ "idA" := by
  decide

/-- C3 (amended): with two or more qualifying entries,
select_existing_workflow_id and resolve_run_group_id return the first
qualifying entry in listing order with exactly one warning, while
resolve_cache_id and the submit tool's workflow selection return the last
qualifying entry in listing order, also with exactly one warning. -/
theorem ambiguous_resolution_policy :
    (∀ (s : Store) (n : String) (t : Option (String × String))
       (m m2 : RemoteWorkflow) (rest : List RemoteWorkflow),
      workflowMatches s n t = m :: m2 :: rest →
      select_existing_workflow_id s n t = (some m.id, 1)) ∧
    (∀ (groups : List RunGroup) (n : String) (g g2 : RunGroup) (rest : List RunGroup),
      groups.filter (fun x => x.name == n) = g :: g2 :: rest →
      resolve_run_group_id groups n = .resolved g.id 1) ∧
    (∀ (l1 : List RunCache) (c : RunCache) (l2 : List RunCache) (n : String),
      cacheNameMatches (some n) c = true →
      l2.filter (cacheNameMatches (some n)) = [] →
      1 ≤ (l1.filter (cacheNameMatches (some n))).length →
      resolve_cache_id (l1 ++ c :: l2) (some n) none = .resolved c.id 1) ∧
    (∀ (l1 : List RemoteWorkflow) (w : RemoteWorkflow) (l2 : List RemoteWorkflow)
       (n : String),
      (w.name == n && !(w.status == "DELETED" || w.status == "FAILED")) = true →
      l2.filter (fun x =>
        x.name == n && !(x.status == "DELETED" || x.status == "FAILED")) = [] →
      1 ≤ (l1.filter (fun x =>
        x.name == n && !(x.status == "DELETED" || x.status == "FAILED"))).length →
      ensure_omics_workflow_submit_select (l1 ++ w :: l2) n = (some w.id, 1)) := by
  refine ⟨?_, ?_, ?_, ?_⟩
  · intro s n t m m2 rest h
    simp [select_existing_workflow_id, h]
  · intro groups n g g2 rest h
    simp [resolve_run_group_id, h]
  · intro l1 c l2 n hc hl2 hlen
    have hfilter : (l1 ++ c :: l2).filter (cacheNameMatches (some n)) =
        l1.filter (cacheNameMatches (some n)) ++ [c] := by
      rw [List.filter_append, List.filter_cons, if_pos hc, hl2]
    have hscan : cache_scan (some n) (l1 ++ c :: l2) 0 none =
        ((l1.filter (cacheNameMatches (some n))).length + 1, some c.id) := by
      rw [cache_scan_eq, hfilter]
      simp [List.foldl_append]
    have hgt : 1 < (l1.filter (cacheNameMatches (some n))).length + 1 := by omega
    simp only [resolve_cache_id, hscan]
    rw [if_pos hgt]
  · intro l1 w l2 n hw hl2 hlen
    have hfilter : (l1 ++ w :: l2).filter (fun x =>
        x.name == n && !(x.status == "DELETED" || x.status == "FAILED")) =
        l1.filter (fun x =>
          x.name == n && !(x.status == "DELETED" || x.status == "FAILED")) ++ [w] := by
      rw [List.filter_append, List.filter_cons, if_pos hw, hl2]
    have hscan : submit_workflow_scan n (l1 ++ w :: l2) 0 none =
        ((l1.filter (fun x =>
          x.name == n && !(x.status == "DELETED" || x.status == "FAILED"))).length + 1,
         some w.id) := by
      rw [submit_workflow_scan_eq, hfilter]
      simp [List.foldl_append]
    have hgt : 1 < (l1.filter (fun x =>
        x.name == n && !(x.status == "DELETED" || x.status == "FAILED"))).length + 1 := by
      omega
    simp only [ensure_omics_workflow_submit_select, hscan]
    rw [if_pos hgt]

/-- C3 witness: the amended theorem applied at concrete two-entry listings of
each resource kind. -/
theorem ambiguous_resolution_policy_witness :
    select_existing_workflow_id
      { workflows := [{ id := 3, name := "wf", status := "ACTIVE", tags := [] },
                      { id := 4, name := "wf", status := "ACTIVE", tags := [] }],
        versions := [], nextId := 5 } "wf" none =
      (some 3, 1) ∧
    resolve_run_group_id
      [{ id := "g1", name := "grp" }, { id := "g2", name := "grp" }] "grp" =
      .resolved "g1" 1 ∧
    resolve_cache_id
      [{ id := "c1", name := "cn", status := "ACTIVE" },
       { id := "c2", name := "cn", status := "ACTIVE" }] (some "cn") none =
      .resolved "c2" 1 ∧
    ensure_omics_workflow_submit_select
      [{ id := 7, name := "sw", status := "ACTIVE", tags := [] },
       { id := 8, name := "sw", status := "ACTIVE", tags := [] }] "sw" =
      (some 8, 1) :=
  ⟨ambiguous_resolution_policy.1
      { workflows := [{ id := 3, name := "wf", status := "ACTIVE", tags := [] },
                      { id := 4, name := "wf", status := "ACTIVE", tags := [] }],
        versions := [], nextId := 5 } "wf" none
      { id := 3, name := "wf", status := "ACTIVE", tags := [] }
      { id := 4, name := "wf", status := "ACTIVE", tags := [] } [] (by decide),
   ambiguous_resolution_policy.2.1
      [{ id := "g1", name := "grp" }, { id := "g2", name := "grp" }] "grp"
      { id := "g1", name := "grp" } { id := "g2", name := "grp" } [] (by decide),
   ambiguous_resolution_policy.2.2.1
      [{ id := "c1", name := "cn", status := "ACTIVE" }]
      { id := "c2", name := "cn", status := "ACTIVE" } [] "cn"
      (by decide) (by decide) (by decide),
   ambiguous_resolution_policy.2.2.2
      [{ id := 7, name := "sw", status := "ACTIVE", tags := [] }]
      { id := 8, name := "sw", status := "ACTIVE", tags := [] } [] "sw"
      (by decide) (by decide) (by decide)⟩

/-- Running the generic polling loop over a stretch of CREATING fetches
followed by a FAILED fetch: one fetch and one sleep per CREATING entry, then
the final fetch observes FAILED and the loop exits with code 2 and the
logged failure message, without sleeping again. -/
theorem await_loop_creating_then_failed (desc : String) (d : EntityDetails)
    (hd : d.status = "FAILED") (rest : List EntityDetails) :
    ∀ (pre : List EntityDetails), (∀ x ∈ pre, x.status = "CREATING") →
    ∀ (f s : Nat),
    await_omics_entity_loop ["CREATING"] ["FAILED"] desc (pre ++ d :: rest) f s =
      .exited 2 (awaitMsg desc d) (f + pre.length + 1) (s + pre.length) := by
  intro pre
  induction pre with
  | nil =>
    intro _ f s
    simp [await_omics_entity_loop, hd]
  | cons p t ih =>
    intro hpre f s
    have hp : p.status = "CREATING" := hpre p (List.mem_cons_self p t)
    have ht : ∀ x ∈ t, x.status = "CREATING" := fun x hx =>
      hpre x (List.mem_cons_of_mem p hx)
    rw [List.cons_append, await_omics_entity_loop]
    rw [ih ht (f + 1) (s + 1)]
    simp [hp]
    constructor <;> omega

/-- The same CREATING-stretch-then-FAILED property for the submit tool's
inline polling loop. -/
theorem submit_loop_creating_then_failed (desc : String) (d : EntityDetails)
    (hd : d.status = "FAILED") (rest : List EntityDetails) :
    ∀ (pre : List EntityDetails), (∀ x ∈ pre, x.status = "CREATING") →
    ∀ (f s : Nat),
    await_omics_workflow_submit desc (pre ++ d :: rest) f s =
      .exited 2 (awaitMsg desc d) (f + pre.length + 1) (s + pre.length) := by
  intro pre
  induction pre with
  | nil =>
    intro _ f s
    simp [await_omics_workflow_submit, hd]
  | cons p t ih =>
    intro hpre f s
    have hp : p.status = "CREATING" := hpre p (List.mem_cons_self p t)
    have ht : ∀ x ∈ t, x.status = "CREATING" := fun x hx =>
      hpre x (List.mem_cons_of_mem p hx)
    rw [List.cons_append, await_omics_workflow_submit]
    rw [ih ht (f + 1) (s + 1)]
    simp [hp]
    constructor <;> omega

/-- C6: in both tools, a polling loop that observes any number of CREATING
fetches and then a FAILED fetch reports the remote-supplied status message
(inside the logged error line) and exits the process with code 2, which is
distinct from the validation exit code 1. -/
theorem await_failure_exit_code :
    ∀ (desc : String) (pre : List EntityDetails) (d : EntityDetails)
      (rest : List EntityDetails),
      (∀ x ∈ pre, x.status = "CREATING") → d.status = "FAILED" →
      await_omics_entity desc (pre ++ d :: rest) =
        .exited 2 (awaitMsg desc d) (pre.length + 1) pre.length ∧
      await_omics_workflow_submit desc (pre ++ d :: rest) 0 0 =
        .exited 2 (awaitMsg desc d) (pre.length + 1) pre.length ∧
      (2 : Nat) ≠ validation_exit_code := by
  intro desc pre d rest hpre hd
  refine ⟨?_, ?_, by decide⟩
  · have := await_loop_creating_then_failed desc d hd rest pre hpre 0 0
    simpa [await_omics_entity] using this
  · have := submit_loop_creating_then_failed desc d hd rest pre hpre 0 0
    simpa using this

/-- C6 witness: the theorem applied to the trace CREATING, FAILED. -/
theorem await_failure_exit_code_witness :
    await_omics_entity "Omics workflow 42"
      [{ status := "CREATING", statusMessage := none },
       { status := "FAILED", statusMessage := some "boom" }] =
      .exited 2
        (awaitMsg "Omics workflow 42" { status := "FAILED", statusMessage := some "boom" })
        2 1 ∧
    await_omics_workflow_submit "Omics workflow 42"
      [{ status := "CREATING", statusMessage := none },
       { status := "FAILED", statusMessage := some "boom" }] 0 0 =
      .exited 2
        (awaitMsg "Omics workflow 42" { status := "FAILED", statusMessage := some "boom" })
        2 1 ∧
    (2 : Nat) ≠ validation_exit_code := by
  have := await_failure_exit_code "Omics workflow 42"
    [{ status := "CREATING", statusMessage := none }]
    { status := "FAILED", statusMessage := some "boom" } []
    (by decide) (by decide)
  simpa using this

/-- C5 counterexample: on the trace CREATING, CREATING, ACTIVE the loop does
fetch three times and sleep twice, but await_omics_entity does not return
the third fetched details to its caller: the Python function has no return
statement, so the caller receives None. -/
theorem await_return_value_cex :
    await_omics_entity "Omics workflow 7"
      [{ status := "CREATING", statusMessage := none },
       { status := "CREATING", statusMessage := none },
       { status := "ACTIVE", statusMessage := some "ready" }] =
      .completed { status := "ACTIVE", statusMessage := some "ready" } 3 2 ∧
    await_omics_entity_return "Omics workflow 7"
      [{ status := "CREATING", statusMessage := none },
       { status := "CREATING", statusMessage := none },
       { status := "ACTIVE", statusMessage := some "ready" }] ≠
      some { status := "ACTIVE", statusMessage := some "ready" } := by
  decide

/-- C5 (amended): on a CREATING, CREATING, ACTIVE trace the loop fetches
exactly three times, sleeps exactly twice and finishes holding the third
fetched details as the logged last_details, while handing None back to its
caller; on a CREATING, FAILED trace it fetches exactly twice, sleeps exactly
once and exits fatally with code 2 without sleeping again. -/
theorem await_polling_counts :
    (∀ (desc : String) (d1 d2 d3 : EntityDetails),
      d1.status = "CREATING" → d2.status = "CREATING" → d3.status = "ACTIVE" →
      await_omics_entity desc [d1, d2, d3] = .completed d3 3 2 ∧
      await_omics_entity_return desc [d1, d2, d3] = none) ∧
    (∀ (desc : String) (e1 e2 : EntityDetails),
      e1.status = "CREATING" → e2.status = "FAILED" →
      await_omics_entity desc [e1, e2] = .exited 2 (awaitMsg desc e2) 2 1) := by
  constructor
  · intro desc d1 d2 d3 h1 h2 h3
    constructor
    · simp [await_omics_entity, await_omics_entity_loop, h1, h2, h3]
    · rfl
  · intro desc e1 e2 h1 h2
    have := await_loop_creating_then_failed desc e2 h2 [] [e1]
      (by
        intro x hx
        have hx1 : x = e1 := by simpa using hx
        rw [hx1, h1]) 0 0
    simpa [await_omics_entity] using this

/-- C5 witness: the amended theorem applied to concrete traces. -/
theorem await_polling_counts_witness :
    (await_omics_entity "wf"
      [{ status := "CREATING", statusMessage := none },
       { status := "CREATING", statusMessage := none },
       { status := "ACTIVE", statusMessage := none }] =
      .completed { status := "ACTIVE", statusMessage := none } 3 2 ∧
     await_omics_entity_return "wf"
      [{ status := "CREATING", statusMessage := none },
       { status := "CREATING", statusMessage := none },
       { status := "ACTIVE", statusMessage := none }] = none) ∧
    await_omics_entity "wf"
      [{ status := "CREATING", statusMessage := none },
       { status := "FAILED", statusMessage := none }] =
      .exited 2 (awaitMsg "wf" { status := "FAILED", statusMessage := none }) 2 1 :=
  ⟨await_polling_counts.1 "wf"
      { status := "CREATING", statusMessage := none }
      { status := "CREATING", statusMessage := none }
      { status := "ACTIVE", statusMessage := none } rfl rfl rfl,
   await_polling_counts.2 "wf"
      { status := "CREATING", statusMessage := none }
      { status := "FAILED", statusMessage := none } rfl rfl⟩

/-- C7: a ClientError from get_workflow_version is classified not-found
exactly when its code is NotFoundException or ResourceNotFoundException or
its HTTP status is 404; with the version absent, a not-found error triggers
the create_workflow_version path (exactly one create call) and any other
error propagates unchanged with no create call. -/
theorem version_not_found_classification :
    (∀ (code : String) (httpStatus : Option Nat),
      not_found_client_error code httpStatus = true ↔
        (code = "NotFoundException" ∨ code = "ResourceNotFoundException" ∨
         httpStatus = some 404)) ∧
    (∀ (rb : RemoteBehavior) (s : Store) (wid : Nat) (vn : String),
      lookupVersion s wid vn = none →
      (not_found_client_error rb.missingVersionErrCode rb.missingVersionErrStatus = true →
        (ensure_version_step rb s wid vn).createVersionCalls = 1) ∧
      (not_found_client_error rb.missingVersionErrCode rb.missingVersionErrStatus = false →
        ensure_version_step rb s wid vn =
          { outcome := .raised rb.missingVersionErrCode rb.missingVersionErrStatus,
            store := s, createVersionCalls := 0 })) := by
  constructor
  · intro code httpStatus
    simp [not_found_client_error, or_assoc]
  · intro rb s wid vn h
    constructor
    · intro hnf
      simp only [ensure_version_step, h, hnf, if_true]
      by_cases hF : rb.createdVersionStatus = "FAILED" <;>
        by_cases hC : rb.createdVersionStatus = "CREATING" <;>
          simp [hF, hC]
    · intro hnf
      simp [ensure_version_step, h, hnf]

/-- C7 witness: the classification and both branches at concrete errors. -/
theorem version_not_found_classification_witness :
    (not_found_client_error "ResourceNotFoundException" none = true ↔
      ("ResourceNotFoundException" = "NotFoundException" ∨
       "ResourceNotFoundException" = "ResourceNotFoundException" ∨
       (none : Option Nat) = some 404)) ∧
    (ensure_version_step
      { createdWorkflowStatus := "ACTIVE", createdVersionStatus := "ACTIVE",
        missingVersionErrCode := "ResourceNotFoundException",
        missingVersionErrStatus := some 404 }
      { workflows := [], versions := [], nextId := 0 } 0 "v").createVersionCalls = 1 ∧
    ensure_version_step
      { createdWorkflowStatus := "ACTIVE", createdVersionStatus := "ACTIVE",
        missingVersionErrCode := "ThrottlingException",
        missingVersionErrStatus := some 400 }
      { workflows := [], versions := [], nextId := 0 } 0 "v" =
      { outcome := .raised "ThrottlingException" (some 400),
        store := { workflows := [], versions := [], nextId := 0 },
        createVersionCalls := 0 } :=
  ⟨version_not_found_classification.1 "ResourceNotFoundException" none,
   (version_not_found_classification.2
      { createdWorkflowStatus := "ACTIVE", createdVersionStatus := "ACTIVE",
        missingVersionErrCode := "ResourceNotFoundException",
        missingVersionErrStatus := some 404 }
      { workflows := [], versions := [], nextId := 0 } 0 "v" (by decide)).1 (by decide),
   (version_not_found_classification.2
      { createdWorkflowStatus := "ACTIVE", createdVersionStatus := "ACTIVE",
        missingVersionErrCode := "ThrottlingException",
        missingVersionErrStatus := some 400 }
      { workflows := [], versions := [], nextId := 0 } 0 "v" (by decide)).2 (by decide)⟩

/-- C2 counterexample: a workflow version whose status is FAILED is reused
by ensure_omics_workflow_and_version (the get_workflow_version result is
never status-filtered: the code only awaits when the status is CREATING),
and a DELETED run cache is selected by resolve_cache_id, which never reads
status at all. -/
theorem failed_entities_reused_cex :
    ensure_omics_workflow_and_version
      { createdWorkflowStatus := "ACTIVE", createdVersionStatus := "ACTIVE",
        missingVersionErrCode := "ResourceNotFoundException",
        missingVersionErrStatus := some 404 }
      { workflows := [{ id := 0, name := "wf", status := "ACTIVE", tags := [miniwdlTag] }],
        versions := [{ workflowId := 0, versionName := "failedfp", status := "FAILED" }],
        nextId := 1 }
      "wf" "failedfp" =
      { outcome := .ok 0 "failedfp",
        store :=
          { workflows := [{ id := 0, name := "wf", status := "ACTIVE", tags := [miniwdlTag] }],
            versions := [{ workflowId := 0, versionName := "failedfp", status := "FAILED" }],
            nextId := 1 },
        createWorkflowCalls := 0, createVersionCalls := 0 } ∧
    resolve_cache_id [{ id := "c1", name := "mycache", status := "DELETED" }]
      (some "mycache") none = .resolved "c1" 0 := by
  constructor
  · decide
  · decide

/-- C2 (amended): only the workflow-listing resolution
(select_existing_workflow_id, used by both the versioned and the legacy
ensure flavors) excludes DELETED and FAILED entities; the workflow-version
lookup reuses an existing version whatever its status (as long as it is not
CREATING, which is merely awaited), and the run-cache resolution matches on
name only, never reading status. -/
theorem select_excludes_deleted_failed :
    (∀ (s : Store) (n : String) (t : Option (String × String)) (wid warn : Nat),
      select_existing_workflow_id s n t = (some wid, warn) →
      ∃ w, w ∈ s.workflows ∧ w.id = wid ∧ w.status ≠ "DELETED" ∧ w.status ≠ "FAILED") ∧
    (∀ (rb : RemoteBehavior) (s : Store) (wid : Nat) (vn : String) (v : RemoteVersion),
      lookupVersion s wid vn = some v → v.status ≠ "CREATING" →
      ensure_version_step rb s wid vn =
        { outcome := .ok wid vn, store := s, createVersionCalls := 0 }) ∧
    (∀ (cid cname st : String),
      resolve_cache_id [{ id := cid, name := cname, status := st }] (some cname) none =
        .resolved cid 0) := by
  refine ⟨?_, ?_, ?_⟩
  · intro s n t wid warn h
    rcases hm : workflowMatches s n t with _ | ⟨m, rest⟩
    · simp only [select_existing_workflow_id, hm] at h
      simp at h
    · simp only [select_existing_workflow_id, hm] at h
      have hid : m.id = wid := by
        have := congrArg Prod.fst h
        simpa using this
      have hmem : m ∈ workflowMatches s n t := by
        rw [hm]; exact List.mem_cons_self m rest
      rw [workflowMatches] at hmem
      obtain ⟨hw, hpred⟩ := List.mem_filter.mp hmem
      have hq : qualifiesWorkflow t m = true := ((Bool.and_eq_true _ _).mp hpred).2
      have hstat : (m.status == "DELETED" || m.status == "FAILED") = false := by
        rw [qualifiesWorkflow.eq_def] at hq
        have := ((Bool.and_eq_true _ _).mp hq).1
        simpa using this
      simp only [Bool.or_eq_false_iff, beq_eq_false_iff_ne] at hstat
      exact ⟨m, hw, hid, hstat.1, hstat.2⟩
  · intro rb s wid vn v hv hvC
    have hb : (v.status == "CREATING") = false := beq_eq_false_iff_ne.mpr hvC
    simp [ensure_version_step, hv, hb]
  · intro cid cname st
    simp [resolve_cache_id, cache_scan, cacheNameMatches]

/-- C2 witness: the amended theorem applied at concrete inputs. -/
theorem select_excludes_deleted_failed_witness :
    (∃ w, w ∈ ({ workflows := [{ id := 9, name := "wf", status := "ACTIVE", tags := [] }],
                 versions := [], nextId := 10 } : Store).workflows ∧
      w.id = 9 ∧ w.status ≠ "DELETED" ∧ w.status ≠ "FAILED") ∧
    ensure_version_step
      { createdWorkflowStatus := "ACTIVE", createdVersionStatus := "ACTIVE",
        missingVersionErrCode := "ResourceNotFoundException",
        missingVersionErrStatus := some 404 }
      { workflows := [],
        versions := [{ workflowId := 4, versionName := "fp", status := "DELETED" }],
        nextId := 5 } 4 "fp" =
      { outcome := .ok 4 "fp",
        store := { workflows := [],
                   versions := [{ workflowId := 4, versionName := "fp", status := "DELETED" }],
                   nextId := 5 },
        createVersionCalls := 0 } ∧
    resolve_cache_id [{ id := "cz", name := "nz", status := "FAILED" }] (some "nz") none =
      .resolved "cz" 0 :=
  ⟨select_excludes_deleted_failed.1
      { workflows := [{ id := 9, name := "wf", status := "ACTIVE", tags := [] }],
        versions := [], nextId := 10 } "wf" none 9 0 (by decide),
   select_excludes_deleted_failed.2.1
      { createdWorkflowStatus := "ACTIVE", createdVersionStatus := "ACTIVE",
        missingVersionErrCode := "ResourceNotFoundException",
        missingVersionErrStatus := some 404 }
      { workflows := [],
        versions := [{ workflowId := 4, versionName := "fp", status := "DELETED" }],
        nextId := 5 } 4 "fp"
      { workflowId := 4, versionName := "fp", status := "DELETED" } (by decide) (by decide),
   select_excludes_deleted_failed.2.2 "cz" "nz" "FAILED"⟩

/-- A list of workflows whose ids are all below n has no workflow with id n. -/
theorem find?_id_none_of_lt (l : List RemoteWorkflow) (n : Nat)
    (h : ∀ w ∈ l, w.id < n) : l.find? (fun w => w.id == n) = none := by
  apply List.find?_eq_none.mpr
  intro w hw
  simp only [beq_iff_eq]
  exact Nat.ne_of_lt (h w hw)

/-- A list of versions whose workflow ids are all below n has no version of
workflow n. -/
theorem find?_version_none_of_lt (l : List RemoteVersion) (n : Nat) (vn : String)
    (h : ∀ v ∈ l, v.workflowId < n) :
    l.find? (fun v => v.workflowId == n && v.versionName == vn) = none := by
  apply List.find?_eq_none.mpr
  intro v hv
  simp only [Bool.and_eq_true, beq_iff_eq]
  rintro ⟨h1, -⟩
  exact Nat.ne_of_lt (h v hv) h1

/-- When the selection helper returns none, the matches list was empty. -/
theorem select_none_matches (s : Store) (n : String) (t : Option (String × String))
    (h : (select_existing_workflow_id s n t).1 = none) : workflowMatches s n t = [] := by
  rcases hm : workflowMatches s n t with _ | ⟨m, rest⟩
  · rfl
  · simp only [select_existing_workflow_id, hm] at h
    simp at h

/-- On a store that already holds a ready (neither FAILED nor CREATING) base
workflow that the tagged selection finds, together with a non-CREATING
version, the versioned ensure is a pure find: it returns that workflow and
version, leaves the store unchanged and creates nothing. -/
theorem ensure_of_ready (rb : RemoteBehavior) (s : Store) (base vname : String)
    (wid : Nat) (st : String)
    (hsel : (select_existing_workflow_id s base (some miniwdlTag)).1 = some wid)
    (hst : workflowStatus s wid = some st)
    (hF : (st == "FAILED") = false) (hC : (st == "CREATING") = false)
    (v : RemoteVersion)
    (hv : lookupVersion s wid vname = some v)
    (hvC : (v.status == "CREATING") = false) :
    ensure_named rb s base vname =
      { outcome := .ok wid vname, store := s,
        createWorkflowCalls := 0, createVersionCalls := 0 } := by
  simp [ensure_named, hsel, ensure_after_base,
    await_workflow_static, hst, hF, hC, ensure_version_step, hv, hvC]

/-- On a store where the untagged selection finds a ready legacy workflow,
the legacy ensure is a pure find: same id, unchanged store, no create. -/
theorem legacy_of_ready (rb : RemoteBehavior) (s : Store) (lname : String)
    (wid : Nat) (st : String)
    (hsel : (select_existing_workflow_id s lname none).1 = some wid)
    (hst : workflowStatus s wid = some st)
    (hF : (st == "FAILED") = false) (hC : (st == "CREATING") = false) :
    legacy_named rb s lname =
      { outcome := .ok wid, store := s, createWorkflowCalls := 0 } := by
  simp [legacy_named, hsel, await_workflow_static, hst, hF, hC]

/-- Second-call behaviour of the versioned ensure core: once a first
invocation has returned successfully, re-running it on the resulting store
finds the same workflow and version and performs no create call. -/
theorem ensure_named_idem (rb : RemoteBehavior) (s : Store) (base vname : String)
    (wid : Nat) (ver : String) (hWF : StoreWF s)
    (hD : rb.createdWorkflowStatus ≠ "DELETED")
    (hOk : (ensure_named rb s base vname).outcome = .ok wid ver) :
    ensure_named rb (ensure_named rb s base vname).store base vname =
      { outcome := .ok wid ver,
        store := (ensure_named rb s base vname).store,
        createWorkflowCalls := 0, createVersionCalls := 0 } := by
  cases hsel : (select_existing_workflow_id s base (some miniwdlTag)).1 with
  | some w =>
    have hr1 : ensure_named rb s base vname = ensure_after_base rb s w vname 0 := by
      simp [ensure_named, hsel]
    rw [hr1] at hOk ⊢
    rcases hst : workflowStatus s w with _ | st
    · simp [ensure_after_base, await_workflow_static, hst] at hOk
    · cases hF : st == "FAILED" with
      | true => simp [ensure_after_base, await_workflow_static, hst, hF] at hOk
      | false =>
        cases hC : st == "CREATING" with
        | true => simp [ensure_after_base, await_workflow_static, hst, hF, hC] at hOk
        | false =>
          rcases hv : lookupVersion s w vname with _ | v
          · -- version absent: the first call must have created it
            cases hnf : not_found_client_error rb.missingVersionErrCode
                rb.missingVersionErrStatus with
            | false =>
              simp [ensure_after_base, await_workflow_static, hst, hF, hC,
                ensure_version_step, hv, hnf] at hOk
            | true =>
              cases hvF : rb.createdVersionStatus == "FAILED" with
              | true =>
                simp [ensure_after_base, await_workflow_static, hst, hF, hC,
                  ensure_version_step, hv, hnf, hvF] at hOk
              | false =>
                cases hvC : rb.createdVersionStatus == "CREATING" with
                | true =>
                  simp [ensure_after_base, await_workflow_static, hst, hF, hC,
                    ensure_version_step, hv, hnf, hvF, hvC] at hOk
                | false =>
                  have hr2 : ensure_after_base rb s w vname 0 =
                      { outcome := .ok w vname,
                        store := { s with versions := s.versions ++
                          [{ workflowId := w, versionName := vname,
                             status := rb.createdVersionStatus }] },
                        createWorkflowCalls := 0, createVersionCalls := 1 } := by
                    simp [ensure_after_base, await_workflow_static, hst, hF, hC,
                      ensure_version_step, hv, hnf, hvF, hvC]
                  rw [hr2] at hOk ⊢
                  have hOk2 : w = wid ∧ vname = ver := by simpa using hOk
                  obtain ⟨rfl, rfl⟩ := hOk2
                  have hsel2 : (select_existing_workflow_id
                      { s with versions := s.versions ++
                        [{ workflowId := w, versionName := vname,
                           status := rb.createdVersionStatus }] }
                      base (some miniwdlTag)).1 = some w := hsel
                  have hst2 : workflowStatus
                      { s with versions := s.versions ++
                        [{ workflowId := w, versionName := vname,
                           status := rb.createdVersionStatus }] }
                      w = some st := hst
                  have hv' : s.versions.find? (fun x =>
                      x.workflowId == w && x.versionName == vname) = none := hv
                  have hv2 : lookupVersion
                      { s with versions := s.versions ++
                        [{ workflowId := w, versionName := vname,
                           status := rb.createdVersionStatus }] }
                      w vname =
                      some { workflowId := w, versionName := vname,
                             status := rb.createdVersionStatus } := by
                    simp [lookupVersion, List.find?_append, hv']
                  exact ensure_of_ready rb _ base vname w st hsel2 hst2 hF hC _ hv2 hvC
          · -- version present: the first call reused it
            cases hvC : v.status == "CREATING" with
            | true =>
              simp [ensure_after_base, await_workflow_static, hst, hF, hC,
                ensure_version_step, hv, hvC] at hOk
            | false =>
              have hr2 : ensure_after_base rb s w vname 0 =
                  { outcome := .ok w vname, store := s,
                    createWorkflowCalls := 0, createVersionCalls := 0 } := by
                simp [ensure_after_base, await_workflow_static, hst, hF, hC,
                  ensure_version_step, hv, hvC]
              rw [hr2] at hOk ⊢
              have hOk2 : w = wid ∧ vname = ver := by simpa using hOk
              obtain ⟨rfl, rfl⟩ := hOk2
              exact ensure_of_ready rb s base vname w st hsel hst hF hC v hv hvC
  | none =>
    have hmempty : workflowMatches s base (some miniwdlTag) = [] :=
      select_none_matches s _ _ hsel
    have hr1 : ensure_named rb s base vname =
        ensure_after_base rb
          { workflows := s.workflows ++
              [{ id := s.nextId, name := base,
                 status := rb.createdWorkflowStatus, tags := [miniwdlTag] }],
            versions := s.versions, nextId := s.nextId + 1 }
          s.nextId vname 1 := by
      simp [ensure_named, hsel, create_omics_workflow]
    rw [hr1] at hOk ⊢
    have hst1 : workflowStatus
        { workflows := s.workflows ++
            [{ id := s.nextId, name := base,
               status := rb.createdWorkflowStatus, tags := [miniwdlTag] }],
          versions := s.versions, nextId := s.nextId + 1 }
        s.nextId = some rb.createdWorkflowStatus := by
      simp [workflowStatus, List.find?_append, find?_id_none_of_lt s.workflows s.nextId hWF.1]
    cases hF1 : rb.createdWorkflowStatus == "FAILED" with
    | true => simp [ensure_after_base, await_workflow_static, hst1, hF1] at hOk
    | false =>
      cases hC1 : rb.createdWorkflowStatus == "CREATING" with
      | true => simp [ensure_after_base, await_workflow_static, hst1, hF1, hC1] at hOk
      | false =>
        have hv1 : lookupVersion
            { workflows := s.workflows ++
                [{ id := s.nextId, name := base,
                   status := rb.createdWorkflowStatus, tags := [miniwdlTag] }],
              versions := s.versions, nextId := s.nextId + 1 }
            s.nextId vname = none := by
          simp [lookupVersion]
          intro x hx h1
          exact absurd h1 (Nat.ne_of_lt (hWF.2 x hx))
        cases hnf : not_found_client_error rb.missingVersionErrCode
            rb.missingVersionErrStatus with
        | false =>
          simp [ensure_after_base, await_workflow_static, hst1, hF1, hC1,
            ensure_version_step, hv1, hnf] at hOk
        | true =>
          cases hvF : rb.createdVersionStatus == "FAILED" with
          | true =>
            simp [ensure_after_base, await_workflow_static, hst1, hF1, hC1,
              ensure_version_step, hv1, hnf, hvF] at hOk
          | false =>
            cases hvC : rb.createdVersionStatus == "CREATING" with
            | true =>
              simp [ensure_after_base, await_workflow_static, hst1, hF1, hC1,
                ensure_version_step, hv1, hnf, hvF, hvC] at hOk
            | false =>
              have hr2 : ensure_after_base rb
                  { workflows := s.workflows ++
                      [{ id := s.nextId, name := base,
                         status := rb.createdWorkflowStatus, tags := [miniwdlTag] }],
                    versions := s.versions, nextId := s.nextId + 1 }
                  s.nextId vname 1 =
                  { outcome := .ok s.nextId vname,
                    store :=
                      { workflows := s.workflows ++
                          [{ id := s.nextId, name := base,
                             status := rb.createdWorkflowStatus, tags := [miniwdlTag] }],
                        versions := s.versions ++
                          [{ workflowId := s.nextId, versionName := vname,
                             status := rb.createdVersionStatus }],
                        nextId := s.nextId + 1 },
                    createWorkflowCalls := 1, createVersionCalls := 1 } := by
                simp [ensure_after_base, await_workflow_static, hst1, hF1, hC1,
                  ensure_version_step, hv1, hnf, hvF, hvC]
              rw [hr2] at hOk ⊢
              have hOk2 : s.nextId = wid ∧ vname = ver := by simpa using hOk
              obtain ⟨rfl, rfl⟩ := hOk2
              have hDbeq : (rb.createdWorkflowStatus == "DELETED") = false :=
                beq_eq_false_iff_ne.mpr hD
              have hmatches : workflowMatches
                  { workflows := s.workflows ++
                      [{ id := s.nextId, name := base,
                         status := rb.createdWorkflowStatus, tags := [miniwdlTag] }],
                    versions := s.versions ++
                      [{ workflowId := s.nextId, versionName := vname,
                         status := rb.createdVersionStatus }],
                    nextId := s.nextId + 1 }
                  base (some miniwdlTag) =
                  [{ id := s.nextId, name := base,
                     status := rb.createdWorkflowStatus, tags := [miniwdlTag] }] := by
                have hm' : s.workflows.filter (fun w =>
                    w.name == base && qualifiesWorkflow (some miniwdlTag) w) =
                    [] := hmempty
                have hpred :
                    (({ id := s.nextId, name := base,
                        status := rb.createdWorkflowStatus,
                        tags := [miniwdlTag] } : RemoteWorkflow).name == base &&
                      qualifiesWorkflow (some miniwdlTag)
                        { id := s.nextId, name := base,
                          status := rb.createdWorkflowStatus,
                          tags := [miniwdlTag] }) = true := by
                  simp [qualifiesWorkflow, tagLookup, miniwdlTag, hDbeq, hF1]
                simp only [workflowMatches, List.filter_append, hm', List.nil_append,
                  List.filter_cons, hpred, if_true, List.filter_nil]
              have hsel2 : (select_existing_workflow_id
                  { workflows := s.workflows ++
                      [{ id := s.nextId, name := base,
                         status := rb.createdWorkflowStatus, tags := [miniwdlTag] }],
                    versions := s.versions ++
                      [{ workflowId := s.nextId, versionName := vname,
                         status := rb.createdVersionStatus }],
                    nextId := s.nextId + 1 }
                  base (some miniwdlTag)).1 = some s.nextId := by
                simp [select_existing_workflow_id, hmatches]
              have hv2 : lookupVersion
                  { workflows := s.workflows ++
                      [{ id := s.nextId, name := base,
                         status := rb.createdWorkflowStatus, tags := [miniwdlTag] }],
                    versions := s.versions ++
                      [{ workflowId := s.nextId, versionName := vname,
                         status := rb.createdVersionStatus }],
                    nextId := s.nextId + 1 }
                  s.nextId vname =
                  some { workflowId := s.nextId, versionName := vname,
                         status := rb.createdVersionStatus } := by
                simp [lookupVersion, List.find?_append,
                  find?_version_none_of_lt s.versions s.nextId _ hWF.2]
              exact ensure_of_ready rb _ base vname s.nextId rb.createdWorkflowStatus
                hsel2 hst1 hF1 hC1 _ hv2 hvC

/-- Second-call behaviour of the legacy ensure core: once a first invocation
has returned successfully, re-running it on the resulting store finds the
same workflow and performs no create call. -/
theorem legacy_named_idem (rb : RemoteBehavior) (s : Store) (lname : String)
    (wid : Nat) (hWF : StoreWF s) (hD : rb.createdWorkflowStatus ≠ "DELETED")
    (hOk : (legacy_named rb s lname).outcome = .ok wid) :
    legacy_named rb (legacy_named rb s lname).store lname =
      { outcome := .ok wid,
        store := (legacy_named rb s lname).store,
        createWorkflowCalls := 0 } := by
  cases hsel : (select_existing_workflow_id s lname none).1 with
  | some w =>
    rcases hst : workflowStatus s w with _ | st
    · simp [legacy_named, hsel, await_workflow_static, hst] at hOk
    · cases hF : st == "FAILED" with
      | true =>
        simp [legacy_named, hsel, await_workflow_static, hst, hF] at hOk
      | false =>
        cases hC : st == "CREATING" with
        | true =>
          simp [legacy_named, hsel, await_workflow_static, hst, hF, hC] at hOk
        | false =>
          have hr1 : legacy_named rb s lname =
              { outcome := .ok w, store := s, createWorkflowCalls := 0 } := by
            simp [legacy_named, hsel, await_workflow_static, hst, hF, hC]
          rw [hr1] at hOk ⊢
          have hwid : w = wid := by simpa using hOk
          subst hwid
          exact legacy_of_ready rb s lname w st hsel hst hF hC
  | none =>
    have hmempty : workflowMatches s lname none = [] :=
      select_none_matches s _ _ hsel
    have hst1 : workflowStatus
        { workflows := s.workflows ++
            [{ id := s.nextId, name := lname,
               status := rb.createdWorkflowStatus, tags := [] }],
          versions := s.versions, nextId := s.nextId + 1 }
        s.nextId = some rb.createdWorkflowStatus := by
      simp [workflowStatus, List.find?_append, find?_id_none_of_lt s.workflows s.nextId hWF.1]
    cases hF1 : rb.createdWorkflowStatus == "FAILED" with
    | true =>
      simp [legacy_named, hsel, create_omics_workflow,
        await_workflow_static, hst1, hF1] at hOk
    | false =>
      cases hC1 : rb.createdWorkflowStatus == "CREATING" with
      | true =>
        simp [legacy_named, hsel, create_omics_workflow,
          await_workflow_static, hst1, hF1, hC1] at hOk
      | false =>
        have hr1 : legacy_named rb s lname =
            { outcome := .ok s.nextId,
              store :=
                { workflows := s.workflows ++
                    [{ id := s.nextId, name := lname,
                       status := rb.createdWorkflowStatus, tags := [] }],
                  versions := s.versions, nextId := s.nextId + 1 },
              createWorkflowCalls := 1 } := by
          simp [legacy_named, hsel, create_omics_workflow,
            await_workflow_static, hst1, hF1, hC1]
        rw [hr1] at hOk ⊢
        have hwid : s.nextId = wid := by simpa using hOk
        subst hwid
        have hDbeq : (rb.createdWorkflowStatus == "DELETED") = false :=
          beq_eq_false_iff_ne.mpr hD
        have hmatches : workflowMatches
            { workflows := s.workflows ++
                [{ id := s.nextId, name := lname,
                   status := rb.createdWorkflowStatus, tags := [] }],
              versions := s.versions, nextId := s.nextId + 1 }
            lname none =
            [{ id := s.nextId, name := lname,
               status := rb.createdWorkflowStatus, tags := [] }] := by
          have hm' : s.workflows.filter (fun w =>
              w.name == lname && qualifiesWorkflow none w) = [] := hmempty
          have hpred :
              (({ id := s.nextId, name := lname,
                  status := rb.createdWorkflowStatus,
                  tags := [] } : RemoteWorkflow).name == lname &&
                qualifiesWorkflow none
                  { id := s.nextId, name := lname,
                    status := rb.createdWorkflowStatus, tags := [] }) = true := by
            simp [qualifiesWorkflow, hDbeq, hF1]
          simp only [workflowMatches, List.filter_append, hm', List.nil_append,
            List.filter_cons, hpred, if_true, List.filter_nil]
        have hsel2 : (select_existing_workflow_id
            { workflows := s.workflows ++
                [{ id := s.nextId, name := lname,
                   status := rb.createdWorkflowStatus, tags := [] }],
              versions := s.versions, nextId := s.nextId + 1 }
            lname none).1 = some s.nextId := by
          simp [select_existing_workflow_id, hmatches]
        exact legacy_of_ready rb _ lname s.nextId rb.createdWorkflowStatus
          hsel2 hst1 hF1 hC1

/-- C1: with the remote store unchanged between the calls, running an ensure
flavor a second time returns the same workflow identifier (and version name,
for the versioned flavor) and performs zero create_workflow /
create_workflow_version calls: the find path resolves the entity the first
invocation created. -/
theorem ensure_idempotent_second_call :
    (∀ (rb : RemoteBehavior) (s : Store) (wfname digest : String) (wid : Nat) (ver : String),
      StoreWF s → rb.createdWorkflowStatus ≠ "DELETED" →
      (ensure_omics_workflow_and_version rb s wfname digest).outcome = .ok wid ver →
      (ensure_omics_workflow_and_version rb
        (ensure_omics_workflow_and_version rb s wfname digest).store wfname digest).outcome =
        .ok wid ver ∧
      (ensure_omics_workflow_and_version rb
        (ensure_omics_workflow_and_version rb s wfname digest).store wfname
          digest).createWorkflowCalls = 0 ∧
      (ensure_omics_workflow_and_version rb
        (ensure_omics_workflow_and_version rb s wfname digest).store wfname
          digest).createVersionCalls = 0) ∧
    (∀ (rb : RemoteBehavior) (s : Store) (wfname digest : String) (wid : Nat),
      StoreWF s → rb.createdWorkflowStatus ≠ "DELETED" →
      (ensure_omics_workflow_legacy rb s wfname digest).outcome = .ok wid →
      (ensure_omics_workflow_legacy rb
        (ensure_omics_workflow_legacy rb s wfname digest).store wfname digest).outcome =
        .ok wid ∧
      (ensure_omics_workflow_legacy rb
        (ensure_omics_workflow_legacy rb s wfname digest).store wfname
          digest).createWorkflowCalls = 0) := by
  constructor
  · intro rb s wfname digest wid ver hWF hD hOk
    simp only [ensure_omics_workflow_and_version] at hOk ⊢
    rw [ensure_named_idem rb s (wfname.take 128) (digest.take 16) wid ver hWF hD hOk]
    exact ⟨rfl, rfl, rfl⟩
  · intro rb s wfname digest wid hWF hD hOk
    simp only [ensure_omics_workflow_legacy] at hOk ⊢
    rw [legacy_named_idem rb s (wfname.take 111 ++ "." ++ digest.take 16) wid hWF hD hOk]
    exact ⟨rfl, rfl⟩

/-- C1 witness: starting from an empty store, a first versioned (resp.
legacy) ensure creates workflow 0, and the theorem yields that the second
call returns the same identifier with zero creates. -/
theorem ensure_idempotent_second_call_witness :
    ((ensure_omics_workflow_and_version
        { createdWorkflowStatus := "ACTIVE", createdVersionStatus := "ACTIVE",
          missingVersionErrCode := "NotFoundException", missingVersionErrStatus := none }
        (ensure_omics_workflow_and_version
          { createdWorkflowStatus := "ACTIVE", createdVersionStatus := "ACTIVE",
            missingVersionErrCode := "NotFoundException", missingVersionErrStatus := none }
          { workflows := [], versions := [], nextId := 0 } "wf" "0123456789abcdef").store
        "wf" "0123456789abcdef").outcome = .ok 0 "0123456789abcdef" ∧
      (ensure_omics_workflow_and_version
        { createdWorkflowStatus := "ACTIVE", createdVersionStatus := "ACTIVE",
          missingVersionErrCode := "NotFoundException", missingVersionErrStatus := none }
        (ensure_omics_workflow_and_version
          { createdWorkflowStatus := "ACTIVE", createdVersionStatus := "ACTIVE",
            missingVersionErrCode := "NotFoundException", missingVersionErrStatus := none }
          { workflows := [], versions := [], nextId := 0 } "wf" "0123456789abcdef").store
        "wf" "0123456789abcdef").createWorkflowCalls = 0 ∧
      (ensure_omics_workflow_and_version
        { createdWorkflowStatus := "ACTIVE", createdVersionStatus := "ACTIVE",
          missingVersionErrCode := "NotFoundException", missingVersionErrStatus := none }
        (ensure_omics_workflow_and_version
          { createdWorkflowStatus := "ACTIVE", createdVersionStatus := "ACTIVE",
            missingVersionErrCode := "NotFoundException", missingVersionErrStatus := none }
          { workflows := [], versions := [], nextId := 0 } "wf" "0123456789abcdef").store
        "wf" "0123456789abcdef").createVersionCalls = 0) ∧
    ((ensure_omics_workflow_legacy
        { createdWorkflowStatus := "ACTIVE", createdVersionStatus := "ACTIVE",
          missingVersionErrCode := "NotFoundException", missingVersionErrStatus := none }
        (ensure_omics_workflow_legacy
          { createdWorkflowStatus := "ACTIVE", createdVersionStatus := "ACTIVE",
            missingVersionErrCode := "NotFoundException", missingVersionErrStatus := none }
          { workflows := [], versions := [], nextId := 0 } "wf" "0123456789abcdef").store
        "wf" "0123456789abcdef").outcome = .ok 0 ∧
      (ensure_omics_workflow_legacy
        { createdWorkflowStatus := "ACTIVE", createdVersionStatus := "ACTIVE",
          missingVersionErrCode := "NotFoundException", missingVersionErrStatus := none }
        (ensure_omics_workflow_legacy
          { createdWorkflowStatus := "ACTIVE", createdVersionStatus := "ACTIVE",
            missingVersionErrCode := "NotFoundException", missingVersionErrStatus := none }
          { workflows := [], versions := [], nextId := 0 } "wf" "0123456789abcdef").store
        "wf" "0123456789abcdef").createWorkflowCalls = 0) :=
  ⟨ensure_idempotent_second_call.1
      { createdWorkflowStatus := "ACTIVE", createdVersionStatus := "ACTIVE",
        missingVersionErrCode := "NotFoundException", missingVersionErrStatus := none }
      { workflows := [], versions := [], nextId := 0 } "wf" "0123456789abcdef"
      0 "0123456789abcdef" (by decide) (by decide) (by decide),
   ensure_idempotent_second_call.2
      { createdWorkflowStatus := "ACTIVE", createdVersionStatus := "ACTIVE",
        missingVersionErrCode := "NotFoundException", missingVersionErrStatus := none }
      { workflows := [], versions := [], nextId := 0 } "wf" "0123456789abcdef"
      0 (by decide) (by decide) (by decide)⟩

end MiniwdlOmicsRun
